import Mathlib

/-!
Shallow embedding of the winlog `eventlogRunner.Run` state machine from
`x-pack/filebeat/cmd/customProvider/beatprovider.go` (package `winlog`).

The Runner's external collaborators (the `eventlog.EventLog` source adapter,
the cursor `Checkpoint` accessor, the `Publisher`, the status sink, the
cancellable context) are modelled as a deterministic oracle `RunEnv`: each
successive call to `open`, `read`, `reset` and `publish` consumes the next
scripted result, and cancellation is a monotone predicate on the index of
the cancellation checks (`cancelCtx.Err()` polls) the Runner performs.

The interpreter `loop` mirrors the Go control flow line by line; it is
indexed by fuel (the Go loop may run forever) and produces the trace of
externally visible effects together with the outcome of `Run` (`none` when
the fuel ran out, i.e. the run has not returned yet).  The `ctxtool.WithFunc`
wrapper guarantees that the registered close callback runs exactly once,
either fired by asynchronous cancellation or by the deferred `cancelFn`;
`run` therefore emits a single `Effect.close` when (and only when) `Run`
returns.
-/

namespace Winlog

/-- Go error values as classified by the `eventlog` package predicates:
`eventlog.IsRecoverable`, `eventlog.IsChannelNotFound`, `errors.Is(err, io.EOF)`,
and everything else (`other`). -/
inductive GoErr
  | recoverable
  | channelNotFound
  | eof
  | other (code : Nat)
  deriving DecidableEq, Repr

/-- `eventlog.IsRecoverable(err)`; false on a nil error. -/
def IsRecoverable : Option GoErr → Bool
  | some GoErr.recoverable => true
  | _ => false

/-- `eventlog.IsChannelNotFound(err)`; false on a nil error. -/
def IsChannelNotFound : Option GoErr → Bool
  | some GoErr.channelNotFound => true
  | _ => false

/-- The `status` values the Runner reports: `status.Running` / `status.Degraded`. -/
inductive Status
  | running
  | degraded
  deriving DecidableEq, Repr

/-- The log / status messages the Runner produces, with the error value they
interpolate (mirroring the `fmt.Sprintf` calls in the Go source). -/
inductive Msg
  | emptyMsg
  | recoverableOpen (e : Option GoErr)
  | channelNotFoundOpen (e : Option GoErr)
  | openFailed (e : GoErr)
  | openedOk
  | recoverableRead (e : Option GoErr)
  | channelNotFoundRead (e : Option GoErr)
  | resetMsg (e : GoErr)
  | eofMsg
  | readingError (e : GoErr)
  | publishError (e : GoErr)
  | checkpointUnpackFailed (e : Nat)
  deriving DecidableEq, Repr

/-- Modelled from the external `winlogbeat/checkpoint` package (not part of
this repository's sources): the persisted read position.  Only its zero value
matters to the Runner, so a single numeric field stands for the position. -/
structure EventLogState where
  recordNumber : Nat := 0
  deriving DecidableEq, Repr

/-- A record returned by `api.Read()`: `record.ToEvent()` yields the event
payload, `record.Offset` its position marker. -/
structure Record where
  event : Nat
  offset : Nat
  deriving DecidableEq, Repr

/-- `record.ToEvent()`. -/
def Record.toEvent (r : Record) : Nat := r.event

/-- The cursor checkpoint accessor: `cursor.IsNew()` and `cursor.Unpack(&cp)`.
`unpackResult` is the outcome of `Unpack`: an error value or the decoded state. -/
structure Cursor where
  isNew : Bool
  unpackResult : Except Nat EventLogState

/-- Externally visible effects of one `Run` invocation. -/
inductive Effect
  | close
  | openCall (cp : EventLogState)
  | readCall
  | resetCall
  | publish (event : Nat) (offset : Nat)
  | updateStatus (s : Status) (m : Msg)
  | wait (seconds : Nat)
  | logError (m : Msg)
  | logDebug (m : Msg)
  deriving DecidableEq, Repr

/-- The result of `Run`: `ok` is a nil return, `err e` returns the error `e`. -/
inductive Outcome
  | ok
  | err (e : GoErr)
  deriving DecidableEq, Repr

/-- The deterministic oracle for the Runner's collaborators.  The `Nat` index
of each script is the number of earlier calls of the same kind; `cancelAfter`
is the index of the first cancellation check that observes the (monotone)
cancellation signal, `none` meaning the signal is never raised. -/
structure RunEnv where
  isFile : Bool
  cursor : Cursor
  openResults : Nat → Option GoErr
  readResults : Nat → List Record × Option GoErr
  resetResults : Nat → Option GoErr
  publishResults : Nat → Option GoErr
  cancelAfter : Option Nat

/-- Whether the cancellation check with index `polls` observes the signal. -/
def RunEnv.cancelled (env : RunEnv) (polls : Nat) : Bool :=
  match env.cancelAfter with
  | none => false
  | some n => decide (n ≤ polls)

/-- The Runner's mutable bookkeeping: how many calls of each kind have been
issued, how many cancellation checks performed, and the sticky
`channelNotFoundErrDetected` flag. -/
structure Counters where
  openIdx : Nat := 0
  readIdx : Nat := 0
  resetIdx : Nat := 0
  pubIdx : Nat := 0
  polls : Nat := 0
  cnfDetected : Bool := false
  deriving DecidableEq, Repr

/-- `initCheckpoint(log, cursor)`: a new cursor yields the zero state; a
failed `Unpack` logs and yields a fresh zero state; otherwise the decoded
state is used. -/
def initCheckpoint (c : Cursor) : List Effect × EventLogState :=
  if c.isNew then ([], {})
  else
    match c.unpackResult with
    | Except.error e => ([Effect.logError (Msg.checkpointUnpackFailed e)], {})
    | Except.ok cp => ([], cp)

/-- The `for _, record := range records` publish loop: each record is
published (event payload, own offset); a non-nil publish error sets status
Degraded and aborts the loop with that error.  Returns the effects, the
error, and the next publish-script index. -/
def publishRecords (env : RunEnv) : List Record → Nat → List Effect × Option GoErr × Nat
  | [], i => ([], none, i)
  | r :: rest, i =>
    match env.publishResults i with
    | some e =>
        ([Effect.publish r.toEvent r.offset,
          Effect.updateStatus Status.degraded (Msg.publishError e)], some e, i + 1)
    | none =>
        let out := publishRecords env rest (i + 1)
        (Effect.publish r.toEvent r.offset :: out.1, out.2.1, out.2.2)

/-- One iteration of the outer `runLoop` from its top: the cancellation
check, `initCheckpoint`, `api.Open`, the Running status re-assertion, and the
classification switch.  `kTop` / `kRead` are the continuations for
`continue` and for entering the read loop. -/
def topStep (env : RunEnv)
    (kTop kRead : Counters → List Effect × Option Outcome)
    (c : Counters) : List Effect × Option Outcome :=
  if env.cancelled c.polls then ([], some Outcome.ok)
  else
    let c1 : Counters := { c with polls := c.polls + 1 }
    let cp := initCheckpoint env.cursor
    let openErr := env.openResults c1.openIdx
    let c2 : Counters := { c1 with openIdx := c1.openIdx + 1 }
    let pre := cp.1 ++ [Effect.openCall cp.2, Effect.updateStatus Status.running Msg.emptyMsg]
    if IsRecoverable openErr then
      let rest := kTop c2
      (pre ++ Effect.logError (Msg.recoverableOpen openErr) :: Effect.wait 5 :: rest.1, rest.2)
    else if !env.isFile && IsChannelNotFound openErr then
      let logEff := if c2.cnfDetected then Effect.logDebug (Msg.channelNotFoundOpen openErr)
        else Effect.logError (Msg.channelNotFoundOpen openErr)
      let rest := kTop { c2 with cnfDetected := true }
      (pre ++ logEff :: Effect.updateStatus Status.degraded (Msg.channelNotFoundOpen openErr)
         :: Effect.wait 5 :: rest.1, rest.2)
    else
      match openErr with
      | some e =>
          (pre ++ [Effect.updateStatus Status.degraded (Msg.openFailed e)],
           some (Outcome.err e))
      | none =>
          let rest := kRead { c2 with cnfDetected := false }
          (pre ++ Effect.logDebug Msg.openedOk :: rest.1, rest.2)

/-- One iteration of the inner read loop: the loop-condition cancellation
check, `api.Read`, and the classification of its outcome (recoverable,
channel-not-found on a live channel, EOF, the shutdown race, a fatal read
error, an empty batch, or a batch to publish). -/
def readStep (env : RunEnv)
    (kTop kRead : Counters → List Effect × Option Outcome)
    (c : Counters) : List Effect × Option Outcome :=
  if env.cancelled c.polls then kTop { c with polls := c.polls + 1 }
  else
    let c1 : Counters := { c with polls := c.polls + 1 }
    let res := env.readResults c1.readIdx
    let c2 : Counters := { c1 with readIdx := c1.readIdx + 1 }
    if IsRecoverable res.2 then
      let resetErr := env.resetResults c2.resetIdx
      let c3 : Counters := { c2 with resetIdx := c2.resetIdx + 1 }
      let resetTr := match resetErr with
        | some re => [Effect.logError (Msg.resetMsg re),
                      Effect.updateStatus Status.degraded (Msg.resetMsg re)]
        | none => []
      let rest := kTop c3
      (Effect.readCall :: Effect.logError (Msg.recoverableRead res.2)
         :: Effect.resetCall :: resetTr ++ rest.1, rest.2)
    else if !env.isFile && IsChannelNotFound res.2 then
      let resetErr := env.resetResults c2.resetIdx
      let c3 : Counters := { c2 with resetIdx := c2.resetIdx + 1 }
      let resetTr := match resetErr with
        | some re => [Effect.logError (Msg.resetMsg re),
                      Effect.updateStatus Status.degraded (Msg.resetMsg re)]
        | none => []
      let rest := kTop c3
      (Effect.readCall :: Effect.logError (Msg.channelNotFoundRead res.2)
         :: Effect.resetCall :: resetTr ++ rest.1, rest.2)
    else
      match res.2 with
      | some e =>
          if e = GoErr.eof then
            ([Effect.readCall, Effect.logDebug Msg.eofMsg], some Outcome.ok)
          else if env.cancelled c2.polls then
            ([Effect.readCall], some Outcome.ok)
          else
            ([Effect.readCall, Effect.logError (Msg.readingError e),
              Effect.updateStatus Status.degraded (Msg.readingError e)],
             some (Outcome.err e))
      | none =>
          if res.1.isEmpty then
            let rest := kRead c2
            (Effect.readCall :: Effect.wait 1 :: rest.1, rest.2)
          else
            let pub := publishRecords env res.1 c2.pubIdx
            match pub.2.1 with
            | some e => (Effect.readCall :: pub.1, some (Outcome.err e))
            | none =>
                let rest := kRead { c2 with pubIdx := pub.2.2 }
                (Effect.readCall :: pub.1 ++ rest.1, rest.2)

/-- Which loop the Runner is about to iterate: the top of the outer `runLoop`
or the inner read loop. -/
inductive Phase
  | top
  | reading
  deriving DecidableEq, Repr

/-- The fuel-indexed interpreter of the nested loops of `Run`.  A `none`
outcome means the fuel was exhausted before `Run` returned. -/
def loop (env : RunEnv) : Nat → Phase → Counters → List Effect × Option Outcome
  | 0, _, _ => ([], none)
  | fuel + 1, Phase.top, c => topStep env (loop env fuel Phase.top) (loop env fuel Phase.reading) c
  | fuel + 1, Phase.reading, c => readStep env (loop env fuel Phase.top) (loop env fuel Phase.reading) c

/-- `eventlogRunner.Run`: the initial Running status report, the loops, and —
when the run returns — the exactly-once close callback installed through
`ctxtool.WithFunc` (fired by asynchronous cancellation or by the deferred
`cancelFn`, whichever comes first, but never twice). -/
def run (env : RunEnv) (fuel : Nat) : List Effect × Option Outcome :=
  let body := loop env fuel Phase.top {}
  (Effect.updateStatus Status.running Msg.emptyMsg
     :: body.1 ++ (if body.2.isSome then [Effect.close] else []), body.2)

/-! ### Basic lemmas -/

theorem cancelled_mono (env : RunEnv) (p : Nat) (h : env.cancelled p = true) :
    env.cancelled (p + 1) = true := by
  unfold RunEnv.cancelled at h ⊢
  cases hA : env.cancelAfter with
  | none => rw [hA] at h; exact absurd h (by simp)
  | some n => rw [hA] at h; simp only [decide_eq_true_eq] at h ⊢; omega

theorem close_not_in_initCheckpoint (c : Cursor) :
    Effect.close ∉ (initCheckpoint c).1 := by
  unfold initCheckpoint
  split
  · simp
  · split <;> simp

theorem close_not_in_publishRecords (env : RunEnv) :
    ∀ (recs : List Record) (i : Nat), Effect.close ∉ (publishRecords env recs i).1 := by
  intro recs
  induction recs with
  | nil => intro i; simp [publishRecords]
  | cons r rest ih =>
    intro i
    simp only [publishRecords]
    cases h : env.publishResults i with
    | some e => simp
    | none => simp [ih (i + 1)]

theorem close_not_in_loop (env : RunEnv) :
    ∀ (fuel : Nat) (ph : Phase) (c : Counters), Effect.close ∉ (loop env fuel ph c).1 := by
  intro fuel
  induction fuel with
  | zero => intro ph c; simp [loop]
  | succ f ih =>
    intro ph c
    cases ph with
    | top =>
      simp only [loop, topStep]
      split
      · simp
      · split
        · simp [close_not_in_initCheckpoint, ih]
        · split
          · split <;> simp [close_not_in_initCheckpoint, ih]
          · split
            · simp [close_not_in_initCheckpoint]
            · simp [close_not_in_initCheckpoint, ih]
    | reading =>
      simp only [loop, readStep]
      split
      · exact ih Phase.top _
      · split
        · split <;> simp [ih]
        · split
          · split <;> simp [ih]
          · split
            · split
              · simp
              · split <;> simp
            · split
              · simp [ih]
              · split
                · simp [close_not_in_publishRecords]
                · simp [close_not_in_publishRecords, ih]

theorem cancelled_loop_ok (env : RunEnv) (fuel : Nat) (ph : Phase) (c : Counters)
    (hf : 2 ≤ fuel) (hc : env.cancelled c.polls = true) :
    (loop env fuel ph c).2 = some Outcome.ok := by
  obtain ⟨f, rfl⟩ : ∃ f, fuel = f + 2 := ⟨fuel - 2, by omega⟩
  cases ph with
  | top => simp [loop, topStep, hc]
  | reading =>
    have hc1 := cancelled_mono env c.polls hc
    simp [loop, readStep, topStep, hc, hc1]

theorem run_close_count (env : RunEnv) (fuel : Nat) :
    (run env fuel).1.count Effect.close = if (run env fuel).2.isSome then 1 else 0 := by
  unfold run
  have hbody := close_not_in_loop env fuel Phase.top {}
  cases h : (loop env fuel Phase.top {}).2 with
  | none =>
    simp [h, List.count_cons, List.count_append, List.count_eq_zero.mpr hbody]
  | some out =>
    simp [h, List.count_cons, List.count_append, List.count_eq_zero.mpr hbody]

/-! ### Concrete environments for witnesses and counterexamples -/

/-- Scenario: cancellation becomes observable right after the first top-of-loop
check (index 0), i.e. is raised during the Opening phase, while `open()`
returns an unclassified fatal error (as a handle closed mid-open does). -/
def envCancelOpenFatal : RunEnv :=
  { isFile := false,
    cursor := { isNew := true, unpackResult := Except.ok {} },
    openResults := fun _ => some (GoErr.other 0),
    readResults := fun _ => ([], none),
    resetResults := fun _ => none,
    publishResults := fun _ => none,
    cancelAfter := some 1 }

/-- Scenario A of the spec: open succeeds, one record at position 10 is
published, the next read hits EndOfStream. -/
def envScenarioA : RunEnv :=
  { isFile := true,
    cursor := { isNew := true, unpackResult := Except.ok {} },
    openResults := fun _ => none,
    readResults := fun i => if i = 0 then ([⟨7, 10⟩], none) else ([], some GoErr.eof),
    resetResults := fun _ => none,
    publishResults := fun _ => none,
    cancelAfter := none }

/-! ### Claim C1 -/

/-- C1 counterexample: a cancellation signal raised during the Opening phase
(not yet observed by the top-of-loop check, index 0, but observed from index 1
on) while `open()` returns a fatal error does NOT make `Run` return nil: the
open-classification switch has no cancellation-race check, so the open error
is propagated.  `close()` is still invoked exactly once. -/
theorem cancel_during_open_fatal_returns_error :
    envCancelOpenFatal.cancelled 0 = false ∧
    envCancelOpenFatal.cancelled 1 = true ∧
    (run envCancelOpenFatal 3).2 = some (Outcome.err (GoErr.other 0)) ∧
    (run envCancelOpenFatal 3).1.count Effect.close = 1 := by
  refine ⟨by decide, by decide, by decide, by decide⟩

/-! ### Claim C2 -/

theorem publishRecords_all_ok (env : RunEnv) :
    ∀ (recs : List Record) (i : Nat),
      (∀ j, j < recs.length → env.publishResults (i + j) = none) →
      publishRecords env recs i =
        ((recs.map fun r => Effect.publish r.toEvent r.offset), none, i + recs.length) := by
  intro recs
  induction recs with
  | nil => intro i h; simp [publishRecords]
  | cons r rest ih =>
    intro i h
    have h0 : env.publishResults i = none := by
      have := h 0 (by simp); simpa using this
    have hrest : ∀ j, j < rest.length → env.publishResults (i + 1 + j) = none := by
      intro j hj
      have := h (j + 1) (by simpa using Nat.succ_lt_succ hj)
      rwa [show i + (j + 1) = i + 1 + j by omega] at this
    simp only [publishRecords, h0]
    rw [ih (i + 1) hrest]
    simp only [List.map_cons, List.length_cons, Prod.mk.injEq, true_and]
    omega

theorem publishRecords_stops_at_error (env : RunEnv) :
    ∀ (j : Nat) (recs : List Record) (i : Nat) (e : GoErr),
      j < recs.length →
      (∀ k, k < j → env.publishResults (i + k) = none) →
      env.publishResults (i + j) = some e →
      (publishRecords env recs i).1 =
        ((recs.take (j + 1)).map fun r => Effect.publish r.toEvent r.offset)
          ++ [Effect.updateStatus Status.degraded (Msg.publishError e)] ∧
      (publishRecords env recs i).2.1 = some e := by
  intro j
  induction j with
  | zero =>
    intro recs i e hlen hk hj
    cases recs with
    | nil => simp at hlen
    | cons r rest =>
      have h0 : env.publishResults i = some e := by simpa using hj
      simp [publishRecords, h0]
  | succ j ih =>
    intro recs i e hlen hk hj
    cases recs with
    | nil => simp at hlen
    | cons r rest =>
      have h0 : env.publishResults i = none := by
        have := hk 0 (by omega); simpa using this
      have hlen' : j < rest.length := by simpa using hlen
      have hrest := ih rest (i + 1) e hlen'
        (fun k hkk => by
          have := hk (k + 1) (by omega)
          rwa [show i + (k + 1) = i + 1 + k by omega] at this)
        (by rwa [show i + (j + 1) = i + 1 + j by omega] at hj)
      simp only [publishRecords, h0]
      exact ⟨by simp [hrest.1], by simp [hrest.2]⟩

theorem loop_reading_publish_error (env : RunEnv) (fuel : Nat) (c : Counters)
    (recs : List Record) (e : GoErr)
    (hc : env.cancelled c.polls = false)
    (hread : env.readResults c.readIdx = (recs, none))
    (hne : recs.isEmpty = false)
    (hpub : (publishRecords env recs c.pubIdx).2.1 = some e) :
    (loop env (fuel + 1) Phase.reading c).2 = some (Outcome.err e) := by
  simp [loop, readStep, hc, hread, hne, hpub, IsRecoverable, IsChannelNotFound]

/-- Environment whose publisher rejects the second publish call. -/
def envPubFail : RunEnv :=
  { isFile := true,
    cursor := { isNew := true, unpackResult := Except.ok {} },
    openResults := fun _ => none,
    readResults := fun _ => ([⟨1, 5⟩, ⟨2, 6⟩, ⟨3, 7⟩], none),
    resetResults := fun _ => none,
    publishResults := fun i => if i = 1 then some (GoErr.other 3) else none,
    cancelAfter := none }

/-- C2: on a non-empty batch read with nil error, `publish` is called once
per record, in batch order, with each record's own event payload and
position; if some publish call fails, the publish loop stops after the
failing call (records after it are not published), status is set Degraded,
and `Run` returns the publish error. -/
theorem publish_in_order_and_stop_on_publish_error :
    (∀ env (recs : List Record) i,
      (∀ j, j < recs.length → env.publishResults (i + j) = none) →
      publishRecords env recs i =
        ((recs.map fun r => Effect.publish r.toEvent r.offset), none, i + recs.length)) ∧
    (∀ env j (recs : List Record) i e, j < recs.length →
      (∀ k, k < j → env.publishResults (i + k) = none) →
      env.publishResults (i + j) = some e →
      (publishRecords env recs i).1 =
        ((recs.take (j + 1)).map fun r => Effect.publish r.toEvent r.offset)
          ++ [Effect.updateStatus Status.degraded (Msg.publishError e)] ∧
      (publishRecords env recs i).2.1 = some e) ∧
    (∀ env fuel c (recs : List Record) e,
      env.cancelled c.polls = false →
      env.readResults c.readIdx = (recs, none) →
      recs.isEmpty = false →
      (publishRecords env recs c.pubIdx).2.1 = some e →
      (loop env (fuel + 1) Phase.reading c).2 = some (Outcome.err e)) := by
  exact ⟨publishRecords_all_ok, publishRecords_stops_at_error,
    loop_reading_publish_error⟩

/-- C2 witness: the in-order publish of a one-record batch, the truncated
publish sequence of a batch whose second publish fails, and the resulting
error return of the run loop. -/
theorem publish_in_order_witness :
    publishRecords envPubFail [⟨1, 5⟩] 2 =
      ([Effect.publish 1 5], none, 3) ∧
    ((publishRecords envPubFail [⟨1, 5⟩, ⟨2, 6⟩, ⟨3, 7⟩] 0).1 =
      (([⟨1, 5⟩, ⟨2, 6⟩, ⟨3, 7⟩].take 2).map
          (fun r : Record => Effect.publish r.toEvent r.offset))
        ++ [Effect.updateStatus Status.degraded (Msg.publishError (GoErr.other 3))] ∧
      (publishRecords envPubFail [⟨1, 5⟩, ⟨2, 6⟩, ⟨3, 7⟩] 0).2.1
        = some (GoErr.other 3)) ∧
    (loop envPubFail 1 Phase.reading {}).2 = some (Outcome.err (GoErr.other 3)) := by
  refine ⟨?_, ?_, ?_⟩
  · exact publish_in_order_and_stop_on_publish_error.1 envPubFail [⟨1, 5⟩] 2
      (by intro j hj; have : j = 0 := by simpa using Nat.lt_one_iff.mp (by simpa using hj)
          subst this; decide)
  · exact publish_in_order_and_stop_on_publish_error.2.1 envPubFail 1
      [⟨1, 5⟩, ⟨2, 6⟩, ⟨3, 7⟩] 0 (GoErr.other 3) (by decide)
      (by intro k hk; have : k = 0 := by omega
          subst this; decide)
      (by decide)
  · exact publish_in_order_and_stop_on_publish_error.2.2 envPubFail 0 {}
      [⟨1, 5⟩, ⟨2, 6⟩, ⟨3, 7⟩] (GoErr.other 3) (by decide) (by decide) (by decide)
      (by decide)

/-! ### Claim C3 -/

theorem IsRecoverable_eq_false {e : GoErr} (h : e ≠ GoErr.recoverable) :
    IsRecoverable (some e) = false := by
  cases e <;> simp_all [IsRecoverable]

theorem IsChannelNotFound_eq_false {e : GoErr} (h : e ≠ GoErr.channelNotFound) :
    IsChannelNotFound (some e) = false := by
  cases e <;> simp_all [IsChannelNotFound]

theorem loop_reading_eof (env : RunEnv) (fuel : Nat) (c : Counters) (recs : List Record)
    (hc : env.cancelled c.polls = false)
    (hread : env.readResults c.readIdx = (recs, some GoErr.eof)) :
    loop env (fuel + 1) Phase.reading c
      = ([Effect.readCall, Effect.logDebug Msg.eofMsg], some Outcome.ok) := by
  simp [loop, readStep, hc, hread, IsRecoverable, IsChannelNotFound]

theorem loop_reading_error_race (env : RunEnv) (fuel : Nat) (c : Counters)
    (recs : List Record) (e : GoErr)
    (hc : env.cancelled c.polls = false)
    (hread : env.readResults c.readIdx = (recs, some e))
    (hrec : e ≠ GoErr.recoverable)
    (hcnf : env.isFile = true ∨ e ≠ GoErr.channelNotFound)
    (heof : e ≠ GoErr.eof)
    (hc2 : env.cancelled (c.polls + 1) = true) :
    loop env (fuel + 1) Phase.reading c = ([Effect.readCall], some Outcome.ok) := by
  have h1 := IsRecoverable_eq_false hrec
  have h2 : (!env.isFile && IsChannelNotFound (some e)) = false := by
    rcases hcnf with h | h
    · simp [h]
    · simp [IsChannelNotFound_eq_false h]
  simp [loop, readStep, hc, hread, h1, h2, heof, hc2]

theorem loop_reading_error_fatal (env : RunEnv) (fuel : Nat) (c : Counters)
    (recs : List Record) (e : GoErr)
    (hc : env.cancelled c.polls = false)
    (hread : env.readResults c.readIdx = (recs, some e))
    (hrec : e ≠ GoErr.recoverable)
    (hcnf : env.isFile = true ∨ e ≠ GoErr.channelNotFound)
    (heof : e ≠ GoErr.eof)
    (hc2 : env.cancelled (c.polls + 1) = false) :
    loop env (fuel + 1) Phase.reading c
      = ([Effect.readCall, Effect.logError (Msg.readingError e),
          Effect.updateStatus Status.degraded (Msg.readingError e)],
         some (Outcome.err e)) := by
  have h1 := IsRecoverable_eq_false hrec
  have h2 : (!env.isFile && IsChannelNotFound (some e)) = false := by
    rcases hcnf with h | h
    · simp [h]
    · simp [IsChannelNotFound_eq_false h]
  simp [loop, readStep, hc, hread, h1, h2, heof, hc2]

/-- Environment whose read hits EndOfStream immediately. -/
def envEofRead : RunEnv :=
  { isFile := true,
    cursor := { isNew := true, unpackResult := Except.ok {} },
    openResults := fun _ => none,
    readResults := fun _ => ([], some GoErr.eof),
    resetResults := fun _ => none,
    publishResults := fun _ => none,
    cancelAfter := none }

/-- Environment whose read fails fatally while cancellation becomes
observable right after the read-loop condition check (the shutdown race). -/
def envRaceRead : RunEnv :=
  { isFile := true,
    cursor := { isNew := true, unpackResult := Except.ok {} },
    openResults := fun _ => none,
    readResults := fun _ => ([], some (GoErr.other 9)),
    resetResults := fun _ => none,
    publishResults := fun _ => none,
    cancelAfter := some 1 }

/-- Environment whose read fails fatally with no cancellation. -/
def envFatalRead : RunEnv :=
  { isFile := true,
    cursor := { isNew := true, unpackResult := Except.ok {} },
    openResults := fun _ => none,
    readResults := fun _ => ([], some (GoErr.other 9)),
    resetResults := fun _ => none,
    publishResults := fun _ => none,
    cancelAfter := none }

/-- C3: a `read()` error that is neither Recoverable nor a non-file
channel-not-found is terminal: EndOfStream returns nil with no status
downgrade (the iteration emits only the read call and a debug log);
any other such error returns nil when the subsequent cancellation check
observes the signal (shutdown race), and otherwise sets status Degraded
with a message and returns the error. -/
theorem read_terminal_error_classification :
    (∀ env fuel (c : Counters) recs,
      env.cancelled c.polls = false →
      env.readResults c.readIdx = (recs, some GoErr.eof) →
      loop env (fuel + 1) Phase.reading c
        = ([Effect.readCall, Effect.logDebug Msg.eofMsg], some Outcome.ok)) ∧
    (∀ env fuel (c : Counters) recs e,
      env.cancelled c.polls = false →
      env.readResults c.readIdx = (recs, some e) →
      e ≠ GoErr.recoverable →
      (env.isFile = true ∨ e ≠ GoErr.channelNotFound) →
      e ≠ GoErr.eof →
      env.cancelled (c.polls + 1) = true →
      loop env (fuel + 1) Phase.reading c = ([Effect.readCall], some Outcome.ok)) ∧
    (∀ env fuel (c : Counters) recs e,
      env.cancelled c.polls = false →
      env.readResults c.readIdx = (recs, some e) →
      e ≠ GoErr.recoverable →
      (env.isFile = true ∨ e ≠ GoErr.channelNotFound) →
      e ≠ GoErr.eof →
      env.cancelled (c.polls + 1) = false →
      loop env (fuel + 1) Phase.reading c
        = ([Effect.readCall, Effect.logError (Msg.readingError e),
            Effect.updateStatus Status.degraded (Msg.readingError e)],
           some (Outcome.err e))) := by
  exact ⟨loop_reading_eof, loop_reading_error_race, loop_reading_error_fatal⟩

/-- C3 witness: the EndOfStream return, the shutdown race return, and the
fatal read-error return evaluated on concrete environments. -/
theorem read_terminal_error_witness :
    loop envEofRead 1 Phase.reading {}
      = ([Effect.readCall, Effect.logDebug Msg.eofMsg], some Outcome.ok) ∧
    loop envRaceRead 1 Phase.reading {} = ([Effect.readCall], some Outcome.ok) ∧
    loop envFatalRead 1 Phase.reading {}
      = ([Effect.readCall, Effect.logError (Msg.readingError (GoErr.other 9)),
          Effect.updateStatus Status.degraded (Msg.readingError (GoErr.other 9))],
         some (Outcome.err (GoErr.other 9))) := by
  refine ⟨?_, ?_, ?_⟩
  · exact read_terminal_error_classification.1 envEofRead 0 {} [] (by decide) (by decide)
  · exact read_terminal_error_classification.2.1 envRaceRead 0 {} [] (GoErr.other 9)
      (by decide) (by decide) (by decide) (Or.inl (by decide)) (by decide) (by decide)
  · exact read_terminal_error_classification.2.2 envFatalRead 0 {} [] (GoErr.other 9)
      (by decide) (by decide) (by decide) (Or.inl (by decide)) (by decide) (by decide)

/-! ### Claim C4 -/

theorem cancelled_set_cursor (env : RunEnv) (curs : Cursor) (p : Nat) :
    ({ env with cursor := curs } : RunEnv).cancelled p = env.cancelled p := rfl

theorem set_cursor_isFile (env : RunEnv) (curs : Cursor) :
    ({ env with cursor := curs } : RunEnv).isFile = env.isFile := rfl

theorem set_cursor_cursor (env : RunEnv) (curs : Cursor) :
    ({ env with cursor := curs } : RunEnv).cursor = curs := rfl

theorem set_cursor_openResults (env : RunEnv) (curs : Cursor) :
    ({ env with cursor := curs } : RunEnv).openResults = env.openResults := rfl

theorem set_cursor_readResults (env : RunEnv) (curs : Cursor) :
    ({ env with cursor := curs } : RunEnv).readResults = env.readResults := rfl

theorem set_cursor_resetResults (env : RunEnv) (curs : Cursor) :
    ({ env with cursor := curs } : RunEnv).resetResults = env.resetResults := rfl

theorem set_cursor_publishResults (env : RunEnv) (curs : Cursor) :
    ({ env with cursor := curs } : RunEnv).publishResults = env.publishResults := rfl

theorem publishRecords_set_cursor (env : RunEnv) (curs : Cursor) :
    ∀ (recs : List Record) (i : Nat),
      publishRecords { env with cursor := curs } recs i = publishRecords env recs i := by
  intro recs
  induction recs with
  | nil => intro i; rfl
  | cons r rest ih =>
    intro i
    simp only [publishRecords, set_cursor_publishResults, ih (i + 1)]

theorem readStep_set_cursor (env : RunEnv) (curs : Cursor)
    (kt kr : Counters → List Effect × Option Outcome) (c : Counters) :
    readStep { env with cursor := curs } kt kr c = readStep env kt kr c := by
  unfold readStep
  simp only [cancelled_set_cursor, set_cursor_isFile, set_cursor_readResults,
    set_cursor_resetResults, set_cursor_publishResults, publishRecords_set_cursor]

theorem topStep_set_cursor_outcome (env : RunEnv) (curs : Cursor)
    (kt kr : Counters → List Effect × Option Outcome) (c : Counters) :
    (topStep { env with cursor := curs } kt kr c).2 = (topStep env kt kr c).2 := by
  unfold topStep
  simp only [cancelled_set_cursor, set_cursor_isFile, set_cursor_openResults, set_cursor_cursor]
  split
  · rfl
  · split
    · rfl
    · split
      · rfl
      · split
        · rfl
        · rfl

theorem topStep_outcome_congr (env : RunEnv)
    (kt kt2 kr kr2 : Counters → List Effect × Option Outcome) (c : Counters)
    (ht : ∀ d, (kt d).2 = (kt2 d).2) (hr : ∀ d, (kr d).2 = (kr2 d).2) :
    (topStep env kt kr c).2 = (topStep env kt2 kr2 c).2 := by
  unfold topStep
  split
  · rfl
  · dsimp only
    split
    · exact ht _
    · split
      · exact ht _
      · split
        · rfl
        · exact hr _

theorem readStep_outcome_congr (env : RunEnv)
    (kt kt2 kr kr2 : Counters → List Effect × Option Outcome) (c : Counters)
    (ht : ∀ d, (kt d).2 = (kt2 d).2) (hr : ∀ d, (kr d).2 = (kr2 d).2) :
    (readStep env kt kr c).2 = (readStep env kt2 kr2 c).2 := by
  unfold readStep
  split
  · exact ht _
  · dsimp only
    split
    · exact ht _
    · split
      · exact ht _
      · split
        · split
          · rfl
          · split
            · rfl
            · rfl
        · split
          · exact hr _
          · split
            · rfl
            · exact hr _

theorem loop_outcome_ignores_cursor (env : RunEnv) (curs : Cursor) :
    ∀ (fuel : Nat) (ph : Phase) (c : Counters),
      (loop { env with cursor := curs } fuel ph c).2 = (loop env fuel ph c).2 := by
  intro fuel
  induction fuel with
  | zero => intro ph c; rfl
  | succ f ih =>
    intro ph c
    cases ph with
    | top =>
      calc (loop { env with cursor := curs } (f + 1) Phase.top c).2
          = (topStep { env with cursor := curs }
              (loop { env with cursor := curs } f Phase.top)
              (loop { env with cursor := curs } f Phase.reading) c).2 := rfl
        _ = (topStep env (loop { env with cursor := curs } f Phase.top)
              (loop { env with cursor := curs } f Phase.reading) c).2 :=
            topStep_set_cursor_outcome env curs _ _ c
        _ = (topStep env (loop env f Phase.top) (loop env f Phase.reading) c).2 :=
            topStep_outcome_congr env _ _ _ _ c (fun d => ih Phase.top d)
              (fun d => ih Phase.reading d)
    | reading =>
      calc (loop { env with cursor := curs } (f + 1) Phase.reading c).2
          = (readStep env (loop { env with cursor := curs } f Phase.top)
              (loop { env with cursor := curs } f Phase.reading) c).2 := by
            rw [show loop { env with cursor := curs } (f + 1) Phase.reading c
                = readStep { env with cursor := curs }
                    (loop { env with cursor := curs } f Phase.top)
                    (loop { env with cursor := curs } f Phase.reading) c from rfl,
              readStep_set_cursor]
        _ = (readStep env (loop env f Phase.top) (loop env f Phase.reading) c).2 :=
            readStep_outcome_congr env _ _ _ _ c (fun d => ih Phase.top d)
              (fun d => ih Phase.reading d)

/-- C4: a checkpoint accessor whose `unpack()` fails makes `initCheckpoint`
log the failure and yield the zero-value checkpoint, and the outcome of
`Run` is entirely independent of the cursor — in particular a corrupted
persisted position never causes `Run` to return an error at startup. -/
theorem corrupted_checkpoint_degrades_to_replay :
    (∀ (c : Cursor) (e : Nat), c.isNew = false → c.unpackResult = Except.error e →
      initCheckpoint c
        = ([Effect.logError (Msg.checkpointUnpackFailed e)], ({} : EventLogState))) ∧
    (∀ env (curs : Cursor) fuel,
      (run { env with cursor := curs } fuel).2 = (run env fuel).2) := by
  constructor
  · intro c e h1 h2
    simp [initCheckpoint, h1, h2]
  · intro env curs fuel
    show (loop { env with cursor := curs } fuel Phase.top {}).2
      = (loop env fuel Phase.top {}).2
    exact loop_outcome_ignores_cursor env curs fuel Phase.top {}

/-- C4 witness: a cursor whose unpack fails with error 7 yields the
zero-value checkpoint, and the run outcome on Scenario A does not change
when that corrupted cursor is substituted. -/
theorem corrupted_checkpoint_witness :
    initCheckpoint { isNew := false, unpackResult := Except.error 7 }
      = ([Effect.logError (Msg.checkpointUnpackFailed 7)], ({} : EventLogState)) ∧
    (run { envScenarioA with
        cursor := { isNew := false, unpackResult := Except.error 7 } } 6).2
      = (run envScenarioA 6).2 := by
  exact ⟨corrupted_checkpoint_degrades_to_replay.1
      { isNew := false, unpackResult := Except.error 7 } 7 (by decide) rfl,
    corrupted_checkpoint_degrades_to_replay.2 envScenarioA
      { isNew := false, unpackResult := Except.error 7 } 6⟩

/-! ### Claim C5 -/

theorem loop_reading_recoverable_reset_ok (env : RunEnv) (fuel : Nat) (c : Counters)
    (recs : List Record)
    (hc : env.cancelled c.polls = false)
    (hread : env.readResults c.readIdx = (recs, some GoErr.recoverable))
    (hreset : env.resetResults c.resetIdx = none) :
    loop env (fuel + 1) Phase.reading c =
      (Effect.readCall :: Effect.logError (Msg.recoverableRead (some GoErr.recoverable))
         :: Effect.resetCall
         :: (loop env fuel Phase.top
              { c with polls := c.polls + 1, readIdx := c.readIdx + 1,
                       resetIdx := c.resetIdx + 1 }).1,
       (loop env fuel Phase.top
          { c with polls := c.polls + 1, readIdx := c.readIdx + 1,
                   resetIdx := c.resetIdx + 1 }).2) := by
  simp [loop, readStep, hc, hread, hreset, IsRecoverable]

theorem loop_reading_recoverable_reset_fail (env : RunEnv) (fuel : Nat) (c : Counters)
    (recs : List Record) (re : GoErr)
    (hc : env.cancelled c.polls = false)
    (hread : env.readResults c.readIdx = (recs, some GoErr.recoverable))
    (hreset : env.resetResults c.resetIdx = some re) :
    loop env (fuel + 1) Phase.reading c =
      (Effect.readCall :: Effect.logError (Msg.recoverableRead (some GoErr.recoverable))
         :: Effect.resetCall :: Effect.logError (Msg.resetMsg re)
         :: Effect.updateStatus Status.degraded (Msg.resetMsg re)
         :: (loop env fuel Phase.top
              { c with polls := c.polls + 1, readIdx := c.readIdx + 1,
                       resetIdx := c.resetIdx + 1 }).1,
       (loop env fuel Phase.top
          { c with polls := c.polls + 1, readIdx := c.readIdx + 1,
                   resetIdx := c.resetIdx + 1 }).2) := by
  simp [loop, readStep, hc, hread, hreset, IsRecoverable]

theorem loop_top_opens (env : RunEnv) (fuel : Nat) (c : Counters)
    (hc : env.cancelled c.polls = false) :
    Effect.openCall (initCheckpoint env.cursor).2 ∈ (loop env (fuel + 1) Phase.top c).1 := by
  simp only [loop]
  unfold topStep
  simp only [hc, Bool.false_eq_true, if_false]
  split
  · simp
  · split
    · simp
    · split
      · simp
      · simp

/-- Environment whose reads fail recoverably with resets succeeding. -/
def envResetOk : RunEnv :=
  { isFile := true,
    cursor := { isNew := true, unpackResult := Except.ok {} },
    openResults := fun _ => none,
    readResults := fun _ => ([], some GoErr.recoverable),
    resetResults := fun _ => none,
    publishResults := fun _ => none,
    cancelAfter := none }

/-- Environment whose reads fail recoverably with resets failing. -/
def envResetFail : RunEnv :=
  { isFile := true,
    cursor := { isNew := true, unpackResult := Except.ok {} },
    openResults := fun _ => none,
    readResults := fun _ => ([], some GoErr.recoverable),
    resetResults := fun _ => some (GoErr.other 4),
    publishResults := fun _ => none,
    cancelAfter := none }

/-- C5: a Recoverable read error makes the Runner call `reset()`; a failed
reset additionally logs and sets status Degraded with the reset-failure
message; in both cases control returns to the top of the run loop, whose
next non-cancelled iteration calls `open()` again. -/
theorem recoverable_read_reset_then_reopen :
    (∀ env fuel (c : Counters) recs,
      env.cancelled c.polls = false →
      env.readResults c.readIdx = (recs, some GoErr.recoverable) →
      env.resetResults c.resetIdx = none →
      loop env (fuel + 1) Phase.reading c =
        (Effect.readCall :: Effect.logError (Msg.recoverableRead (some GoErr.recoverable))
           :: Effect.resetCall
           :: (loop env fuel Phase.top
                { c with polls := c.polls + 1, readIdx := c.readIdx + 1,
                         resetIdx := c.resetIdx + 1 }).1,
         (loop env fuel Phase.top
            { c with polls := c.polls + 1, readIdx := c.readIdx + 1,
                     resetIdx := c.resetIdx + 1 }).2)) ∧
    (∀ env fuel (c : Counters) recs re,
      env.cancelled c.polls = false →
      env.readResults c.readIdx = (recs, some GoErr.recoverable) →
      env.resetResults c.resetIdx = some re →
      loop env (fuel + 1) Phase.reading c =
        (Effect.readCall :: Effect.logError (Msg.recoverableRead (some GoErr.recoverable))
           :: Effect.resetCall :: Effect.logError (Msg.resetMsg re)
           :: Effect.updateStatus Status.degraded (Msg.resetMsg re)
           :: (loop env fuel Phase.top
                { c with polls := c.polls + 1, readIdx := c.readIdx + 1,
                         resetIdx := c.resetIdx + 1 }).1,
         (loop env fuel Phase.top
            { c with polls := c.polls + 1, readIdx := c.readIdx + 1,
                     resetIdx := c.resetIdx + 1 }).2)) ∧
    (∀ env fuel (c : Counters),
      env.cancelled c.polls = false →
      Effect.openCall (initCheckpoint env.cursor).2 ∈ (loop env (fuel + 1) Phase.top c).1) := by
  exact ⟨loop_reading_recoverable_reset_ok, loop_reading_recoverable_reset_fail,
    loop_top_opens⟩

/-- C5 witness: the reset-and-reopen iteration with a succeeding reset, the
Degraded status write with a failing reset, and the subsequent open call. -/
theorem recoverable_read_reset_witness :
    loop envResetOk 1 Phase.reading {} =
      (Effect.readCall :: Effect.logError (Msg.recoverableRead (some GoErr.recoverable))
         :: Effect.resetCall
         :: (loop envResetOk 0 Phase.top { polls := 1, readIdx := 1, resetIdx := 1 }).1,
       (loop envResetOk 0 Phase.top { polls := 1, readIdx := 1, resetIdx := 1 }).2) ∧
    loop envResetFail 1 Phase.reading {} =
      (Effect.readCall :: Effect.logError (Msg.recoverableRead (some GoErr.recoverable))
         :: Effect.resetCall :: Effect.logError (Msg.resetMsg (GoErr.other 4))
         :: Effect.updateStatus Status.degraded (Msg.resetMsg (GoErr.other 4))
         :: (loop envResetFail 0 Phase.top { polls := 1, readIdx := 1, resetIdx := 1 }).1,
       (loop envResetFail 0 Phase.top { polls := 1, readIdx := 1, resetIdx := 1 }).2) ∧
    Effect.openCall (initCheckpoint envResetOk.cursor).2 ∈ (loop envResetOk 1 Phase.top {}).1 := by
  exact ⟨recoverable_read_reset_then_reopen.1 envResetOk 0 {} [] (by decide) (by decide)
      (by decide),
    recoverable_read_reset_then_reopen.2.1 envResetFail 0 {} [] (GoErr.other 4) (by decide)
      (by decide) (by decide),
    recoverable_read_reset_then_reopen.2.2 envResetOk 0 {} (by decide)⟩

/-! ### Claim C6 -/

theorem loop_top_cnf_first (env : RunEnv) (fuel : Nat) (c : Counters)
    (hc : env.cancelled c.polls = false)
    (hfile : env.isFile = false)
    (hopen : env.openResults c.openIdx = some GoErr.channelNotFound)
    (hdet : c.cnfDetected = false) :
    loop env (fuel + 1) Phase.top c =
      ((initCheckpoint env.cursor).1 ++ Effect.openCall (initCheckpoint env.cursor).2
         :: Effect.updateStatus Status.running Msg.emptyMsg
         :: Effect.logError (Msg.channelNotFoundOpen (some GoErr.channelNotFound))
         :: Effect.updateStatus Status.degraded (Msg.channelNotFoundOpen (some GoErr.channelNotFound))
         :: Effect.wait 5
         :: (loop env fuel Phase.top
              { c with polls := c.polls + 1, openIdx := c.openIdx + 1,
                       cnfDetected := true }).1,
       (loop env fuel Phase.top
          { c with polls := c.polls + 1, openIdx := c.openIdx + 1,
                   cnfDetected := true }).2) := by
  simp [loop, topStep, hc, hfile, hopen, hdet, IsRecoverable, IsChannelNotFound]

theorem loop_top_cnf_repeat (env : RunEnv) (fuel : Nat) (c : Counters)
    (hc : env.cancelled c.polls = false)
    (hfile : env.isFile = false)
    (hopen : env.openResults c.openIdx = some GoErr.channelNotFound)
    (hdet : c.cnfDetected = true) :
    loop env (fuel + 1) Phase.top c =
      ((initCheckpoint env.cursor).1 ++ Effect.openCall (initCheckpoint env.cursor).2
         :: Effect.updateStatus Status.running Msg.emptyMsg
         :: Effect.logDebug (Msg.channelNotFoundOpen (some GoErr.channelNotFound))
         :: Effect.updateStatus Status.degraded (Msg.channelNotFoundOpen (some GoErr.channelNotFound))
         :: Effect.wait 5
         :: (loop env fuel Phase.top
              { c with polls := c.polls + 1, openIdx := c.openIdx + 1,
                       cnfDetected := true }).1,
       (loop env fuel Phase.top
          { c with polls := c.polls + 1, openIdx := c.openIdx + 1,
                   cnfDetected := true }).2) := by
  simp [loop, topStep, hc, hfile, hopen, hdet, IsRecoverable, IsChannelNotFound]

theorem loop_top_open_ok (env : RunEnv) (fuel : Nat) (c : Counters)
    (hc : env.cancelled c.polls = false)
    (hopen : env.openResults c.openIdx = none) :
    loop env (fuel + 1) Phase.top c =
      ((initCheckpoint env.cursor).1 ++ Effect.openCall (initCheckpoint env.cursor).2
         :: Effect.updateStatus Status.running Msg.emptyMsg
         :: Effect.logDebug Msg.openedOk
         :: (loop env fuel Phase.reading
              { c with polls := c.polls + 1, openIdx := c.openIdx + 1,
                       cnfDetected := false }).1,
       (loop env fuel Phase.reading
          { c with polls := c.polls + 1, openIdx := c.openIdx + 1,
                   cnfDetected := false }).2) := by
  simp [loop, topStep, hc, hopen, IsRecoverable, IsChannelNotFound]

theorem loop_top_recoverable_step (env : RunEnv) (fuel : Nat) (c : Counters)
    (hc : env.cancelled c.polls = false)
    (hopen : env.openResults c.openIdx = some GoErr.recoverable) :
    loop env (fuel + 1) Phase.top c =
      ((initCheckpoint env.cursor).1 ++ Effect.openCall (initCheckpoint env.cursor).2
         :: Effect.updateStatus Status.running Msg.emptyMsg
         :: Effect.logError (Msg.recoverableOpen (some GoErr.recoverable))
         :: Effect.wait 5
         :: (loop env fuel Phase.top
              { c with polls := c.polls + 1, openIdx := c.openIdx + 1 }).1,
       (loop env fuel Phase.top
          { c with polls := c.polls + 1, openIdx := c.openIdx + 1 }).2) := by
  simp [loop, topStep, hc, hopen, IsRecoverable]

/-- Environment for the channel-not-found open scenario: a live (non-file)
channel whose first two opens fail with channel-not-found, then recoverable,
then success. -/
def envCnfOpen : RunEnv :=
  { isFile := false,
    cursor := { isNew := true, unpackResult := Except.ok {} },
    openResults := fun i =>
      if i ≤ 1 then some GoErr.channelNotFound
      else if i = 2 then some GoErr.recoverable
      else none,
    readResults := fun _ => ([], some GoErr.eof),
    resetResults := fun _ => none,
    publishResults := fun _ => none,
    cancelAfter := none }

/-- C6: a channel-not-found `open()` failure on a live channel logs at error
level on the first occurrence and at debug level on repeats, sets status
Degraded with the channel-not-found message, waits 5 seconds, and retries
Opening with the sticky already-reported flag set; the flag is preserved by
a recoverable open failure and cleared exactly when an open succeeds. -/
theorem channel_not_found_open_dedup_and_retry :
    (∀ env fuel (c : Counters),
      env.cancelled c.polls = false → env.isFile = false →
      env.openResults c.openIdx = some GoErr.channelNotFound → c.cnfDetected = false →
      loop env (fuel + 1) Phase.top c =
        ((initCheckpoint env.cursor).1 ++ Effect.openCall (initCheckpoint env.cursor).2
           :: Effect.updateStatus Status.running Msg.emptyMsg
           :: Effect.logError (Msg.channelNotFoundOpen (some GoErr.channelNotFound))
           :: Effect.updateStatus Status.degraded
                (Msg.channelNotFoundOpen (some GoErr.channelNotFound))
           :: Effect.wait 5
           :: (loop env fuel Phase.top
                { c with polls := c.polls + 1, openIdx := c.openIdx + 1,
                         cnfDetected := true }).1,
         (loop env fuel Phase.top
            { c with polls := c.polls + 1, openIdx := c.openIdx + 1,
                     cnfDetected := true }).2)) ∧
    (∀ env fuel (c : Counters),
      env.cancelled c.polls = false → env.isFile = false →
      env.openResults c.openIdx = some GoErr.channelNotFound → c.cnfDetected = true →
      loop env (fuel + 1) Phase.top c =
        ((initCheckpoint env.cursor).1 ++ Effect.openCall (initCheckpoint env.cursor).2
           :: Effect.updateStatus Status.running Msg.emptyMsg
           :: Effect.logDebug (Msg.channelNotFoundOpen (some GoErr.channelNotFound))
           :: Effect.updateStatus Status.degraded
                (Msg.channelNotFoundOpen (some GoErr.channelNotFound))
           :: Effect.wait 5
           :: (loop env fuel Phase.top
                { c with polls := c.polls + 1, openIdx := c.openIdx + 1,
                         cnfDetected := true }).1,
         (loop env fuel Phase.top
            { c with polls := c.polls + 1, openIdx := c.openIdx + 1,
                     cnfDetected := true }).2)) ∧
    (∀ env fuel (c : Counters),
      env.cancelled c.polls = false →
      env.openResults c.openIdx = none →
      loop env (fuel + 1) Phase.top c =
        ((initCheckpoint env.cursor).1 ++ Effect.openCall (initCheckpoint env.cursor).2
           :: Effect.updateStatus Status.running Msg.emptyMsg
           :: Effect.logDebug Msg.openedOk
           :: (loop env fuel Phase.reading
                { c with polls := c.polls + 1, openIdx := c.openIdx + 1,
                         cnfDetected := false }).1,
         (loop env fuel Phase.reading
            { c with polls := c.polls + 1, openIdx := c.openIdx + 1,
                     cnfDetected := false }).2)) ∧
    (∀ env fuel (c : Counters),
      env.cancelled c.polls = false →
      env.openResults c.openIdx = some GoErr.recoverable →
      loop env (fuel + 1) Phase.top c =
        ((initCheckpoint env.cursor).1 ++ Effect.openCall (initCheckpoint env.cursor).2
           :: Effect.updateStatus Status.running Msg.emptyMsg
           :: Effect.logError (Msg.recoverableOpen (some GoErr.recoverable))
           :: Effect.wait 5
           :: (loop env fuel Phase.top
                { c with polls := c.polls + 1, openIdx := c.openIdx + 1 }).1,
         (loop env fuel Phase.top
            { c with polls := c.polls + 1, openIdx := c.openIdx + 1 }).2)) := by
  exact ⟨loop_top_cnf_first, loop_top_cnf_repeat, loop_top_open_ok, loop_top_recoverable_step⟩

/-- C6 witness: the first and repeated channel-not-found opens, the flag
preserved by a recoverable open, and the flag cleared on open success,
evaluated over the scripted channel-not-found environment. -/
theorem channel_not_found_open_witness :
    loop envCnfOpen 4 Phase.top {} =
      ((initCheckpoint envCnfOpen.cursor).1
         ++ Effect.openCall (initCheckpoint envCnfOpen.cursor).2
         :: Effect.updateStatus Status.running Msg.emptyMsg
         :: Effect.logError (Msg.channelNotFoundOpen (some GoErr.channelNotFound))
         :: Effect.updateStatus Status.degraded
              (Msg.channelNotFoundOpen (some GoErr.channelNotFound))
         :: Effect.wait 5
         :: (loop envCnfOpen 3 Phase.top { polls := 1, openIdx := 1, cnfDetected := true }).1,
       (loop envCnfOpen 3 Phase.top { polls := 1, openIdx := 1, cnfDetected := true }).2) ∧
    loop envCnfOpen 3 Phase.top { polls := 1, openIdx := 1, cnfDetected := true } =
      ((initCheckpoint envCnfOpen.cursor).1
         ++ Effect.openCall (initCheckpoint envCnfOpen.cursor).2
         :: Effect.updateStatus Status.running Msg.emptyMsg
         :: Effect.logDebug (Msg.channelNotFoundOpen (some GoErr.channelNotFound))
         :: Effect.updateStatus Status.degraded
              (Msg.channelNotFoundOpen (some GoErr.channelNotFound))
         :: Effect.wait 5
         :: (loop envCnfOpen 2 Phase.top { polls := 2, openIdx := 2, cnfDetected := true }).1,
       (loop envCnfOpen 2 Phase.top { polls := 2, openIdx := 2, cnfDetected := true }).2) ∧
    loop envCnfOpen 2 Phase.top { polls := 2, openIdx := 2, cnfDetected := true } =
      ((initCheckpoint envCnfOpen.cursor).1
         ++ Effect.openCall (initCheckpoint envCnfOpen.cursor).2
         :: Effect.updateStatus Status.running Msg.emptyMsg
         :: Effect.logError (Msg.recoverableOpen (some GoErr.recoverable))
         :: Effect.wait 5
         :: (loop envCnfOpen 1 Phase.top { polls := 3, openIdx := 3, cnfDetected := true }).1,
       (loop envCnfOpen 1 Phase.top { polls := 3, openIdx := 3, cnfDetected := true }).2) ∧
    loop envCnfOpen 1 Phase.top { polls := 3, openIdx := 3, cnfDetected := true } =
      ((initCheckpoint envCnfOpen.cursor).1
         ++ Effect.openCall (initCheckpoint envCnfOpen.cursor).2
         :: Effect.updateStatus Status.running Msg.emptyMsg
         :: Effect.logDebug Msg.openedOk
         :: (loop envCnfOpen 0 Phase.reading
              { polls := 4, openIdx := 4, cnfDetected := false }).1,
       (loop envCnfOpen 0 Phase.reading
          { polls := 4, openIdx := 4, cnfDetected := false }).2) := by
  exact ⟨channel_not_found_open_dedup_and_retry.1 envCnfOpen 3 {} (by decide) (by decide)
      (by decide) (by decide),
    channel_not_found_open_dedup_and_retry.2.1 envCnfOpen 2
      { polls := 1, openIdx := 1, cnfDetected := true } (by decide) (by decide) (by decide)
      (by decide),
    channel_not_found_open_dedup_and_retry.2.2.2 envCnfOpen 1
      { polls := 2, openIdx := 2, cnfDetected := true } (by decide) (by decide),
    channel_not_found_open_dedup_and_retry.2.2.1 envCnfOpen 0
      { polls := 3, openIdx := 3, cnfDetected := true } (by decide) (by decide)⟩

/-! ### Claim C7 -/

theorem loop_top_open_fatal (env : RunEnv) (fuel : Nat) (c : Counters) (e : GoErr)
    (hc : env.cancelled c.polls = false)
    (hrec : e ≠ GoErr.recoverable)
    (hcnf : env.isFile = true ∨ e ≠ GoErr.channelNotFound)
    (hopen : env.openResults c.openIdx = some e) :
    loop env (fuel + 1) Phase.top c =
      ((initCheckpoint env.cursor).1 ++ Effect.openCall (initCheckpoint env.cursor).2
         :: Effect.updateStatus Status.running Msg.emptyMsg
         :: [Effect.updateStatus Status.degraded (Msg.openFailed e)],
       some (Outcome.err e)) := by
  have h1 := IsRecoverable_eq_false hrec
  have h2 : (!env.isFile && IsChannelNotFound (some e)) = false := by
    rcases hcnf with h | h
    · simp [h]
    · simp [IsChannelNotFound_eq_false h]
  simp [loop, topStep, hc, hopen, h1, h2]

/-- Environment: a file-backed source whose open and read both fail with the
channel-not-found error value. -/
def envCnfFile : RunEnv :=
  { isFile := true,
    cursor := { isNew := true, unpackResult := Except.ok {} },
    openResults := fun _ => some GoErr.channelNotFound,
    readResults := fun _ => ([], some GoErr.channelNotFound),
    resetResults := fun _ => none,
    publishResults := fun _ => none,
    cancelAfter := none }

/-- C7: when `isFile()` is true, a channel-not-found error is not given the
channel-not-found retry handling: on open it falls through to the Degraded
status and Fatal propagation of any other open error, and on read it falls
through to the terminal read-error handling. -/
theorem channel_not_found_on_file_falls_through :
    (∀ env fuel (c : Counters),
      env.cancelled c.polls = false → env.isFile = true →
      env.openResults c.openIdx = some GoErr.channelNotFound →
      loop env (fuel + 1) Phase.top c =
        ((initCheckpoint env.cursor).1 ++ Effect.openCall (initCheckpoint env.cursor).2
           :: Effect.updateStatus Status.running Msg.emptyMsg
           :: [Effect.updateStatus Status.degraded (Msg.openFailed GoErr.channelNotFound)],
         some (Outcome.err GoErr.channelNotFound))) ∧
    (∀ env fuel (c : Counters) recs,
      env.cancelled c.polls = false → env.isFile = true →
      env.readResults c.readIdx = (recs, some GoErr.channelNotFound) →
      env.cancelled (c.polls + 1) = false →
      loop env (fuel + 1) Phase.reading c =
        ([Effect.readCall, Effect.logError (Msg.readingError GoErr.channelNotFound),
          Effect.updateStatus Status.degraded (Msg.readingError GoErr.channelNotFound)],
         some (Outcome.err GoErr.channelNotFound))) := by
  constructor
  · intro env fuel c hc hfile hopen
    exact loop_top_open_fatal env fuel c GoErr.channelNotFound hc (by decide)
      (Or.inl hfile) hopen
  · intro env fuel c recs hc hfile hread hc2
    exact loop_reading_error_fatal env fuel c recs GoErr.channelNotFound hc hread
      (by decide) (Or.inl hfile) (by decide) hc2

/-- C7 witness: the fatal open and fatal read handling of channel-not-found
on a file-backed source. -/
theorem channel_not_found_on_file_witness :
    loop envCnfFile 1 Phase.top {} =
      ((initCheckpoint envCnfFile.cursor).1
         ++ Effect.openCall (initCheckpoint envCnfFile.cursor).2
         :: Effect.updateStatus Status.running Msg.emptyMsg
         :: [Effect.updateStatus Status.degraded (Msg.openFailed GoErr.channelNotFound)],
       some (Outcome.err GoErr.channelNotFound)) ∧
    loop envCnfFile 1 Phase.reading {} =
      ([Effect.readCall, Effect.logError (Msg.readingError GoErr.channelNotFound),
        Effect.updateStatus Status.degraded (Msg.readingError GoErr.channelNotFound)],
       some (Outcome.err GoErr.channelNotFound)) := by
  exact ⟨channel_not_found_on_file_falls_through.1 envCnfFile 0 {} (by decide) (by decide)
      (by decide),
    channel_not_found_on_file_falls_through.2 envCnfFile 0 {} [] (by decide) (by decide)
      (by decide) (by decide)⟩

/-! ### Claim C8 -/

theorem loop_recoverable_no_cancel_diverges (env : RunEnv)
    (hA : env.cancelAfter = none)
    (hO : ∀ i, env.openResults i = some GoErr.recoverable) :
    ∀ (fuel : Nat) (c : Counters), (loop env fuel Phase.top c).2 = none := by
  intro fuel
  induction fuel with
  | zero => intro c; rfl
  | succ f ih =>
    intro c
    have hc : env.cancelled c.polls = false := by simp [RunEnv.cancelled, hA]
    simp [loop, topStep, hc, hO, IsRecoverable, ih]

theorem loop_recoverable_cancel_returns (env : RunEnv) (n : Nat)
    (hA : env.cancelAfter = some n)
    (hO : ∀ i, env.openResults i = some GoErr.recoverable) :
    ∀ (fuel : Nat) (c : Counters), 1 ≤ fuel → n + 1 ≤ c.polls + fuel →
      (loop env fuel Phase.top c).2 = some Outcome.ok := by
  intro fuel
  induction fuel with
  | zero => intro c h0 h1; exact absurd h0 (by omega)
  | succ f ih =>
    intro c h1 h2
    by_cases hle : n ≤ c.polls
    · have hcan : env.cancelled c.polls = true := by
        simp [RunEnv.cancelled, hA]; omega
      simp [loop, topStep, hcan]
    · have hcan : env.cancelled c.polls = false := by
        simp [RunEnv.cancelled, hA]; omega
      have hf : 1 ≤ f := by omega
      simp [loop, topStep, hcan, hO, IsRecoverable]
      exact ih _ hf (by simp; omega)

/-- Environment: every open fails recoverably, no cancellation. -/
def envOpenRecForever : RunEnv :=
  { isFile := false,
    cursor := { isNew := true, unpackResult := Except.ok {} },
    openResults := fun _ => some GoErr.recoverable,
    readResults := fun _ => ([], none),
    resetResults := fun _ => none,
    publishResults := fun _ => none,
    cancelAfter := none }

/-- Environment: every open fails recoverably, cancellation observed from
the fourth check on. -/
def envOpenRecCancel : RunEnv :=
  { isFile := false,
    cursor := { isNew := true, unpackResult := Except.ok {} },
    openResults := fun _ => some GoErr.recoverable,
    readResults := fun _ => ([], none),
    resetResults := fun _ => none,
    publishResults := fun _ => none,
    cancelAfter := some 3 }

/-- C8: a recoverable `open()` failure is retried after a fixed cancellable
5-second wait, with no retry-count ceiling (the retry step is the same at
every open index); when opens keep failing recoverably the loop never
returns without cancellation, and once cancellation is raised the loop
returns nil within a number of iterations bounded by the cancellation
index. -/
theorem open_recoverable_retries_until_cancellation :
    (∀ env fuel (c : Counters),
      env.cancelled c.polls = false →
      env.openResults c.openIdx = some GoErr.recoverable →
      loop env (fuel + 1) Phase.top c =
        ((initCheckpoint env.cursor).1 ++ Effect.openCall (initCheckpoint env.cursor).2
           :: Effect.updateStatus Status.running Msg.emptyMsg
           :: Effect.logError (Msg.recoverableOpen (some GoErr.recoverable))
           :: Effect.wait 5
           :: (loop env fuel Phase.top
                { c with polls := c.polls + 1, openIdx := c.openIdx + 1 }).1,
         (loop env fuel Phase.top
            { c with polls := c.polls + 1, openIdx := c.openIdx + 1 }).2)) ∧
    (∀ env, env.cancelAfter = none →
      (∀ i, env.openResults i = some GoErr.recoverable) →
      ∀ fuel (c : Counters), (loop env fuel Phase.top c).2 = none) ∧
    (∀ env n, env.cancelAfter = some n →
      (∀ i, env.openResults i = some GoErr.recoverable) →
      ∀ fuel (c : Counters), 1 ≤ fuel → n + 1 ≤ c.polls + fuel →
        (loop env fuel Phase.top c).2 = some Outcome.ok) := by
  exact ⟨loop_top_recoverable_step,
    fun env hA hO fuel c => loop_recoverable_no_cancel_diverges env hA hO fuel c,
    fun env n hA hO fuel c h1 h2 => loop_recoverable_cancel_returns env n hA hO fuel c h1 h2⟩

/-- C8 witness: one retry step, divergence without cancellation at fuel 5,
and the nil return once cancellation (index 3) is observed. -/
theorem open_recoverable_retry_witness :
    loop envOpenRecForever 1 Phase.top {} =
      ((initCheckpoint envOpenRecForever.cursor).1
         ++ Effect.openCall (initCheckpoint envOpenRecForever.cursor).2
         :: Effect.updateStatus Status.running Msg.emptyMsg
         :: Effect.logError (Msg.recoverableOpen (some GoErr.recoverable))
         :: Effect.wait 5
         :: (loop envOpenRecForever 0 Phase.top { polls := 1, openIdx := 1 }).1,
       (loop envOpenRecForever 0 Phase.top { polls := 1, openIdx := 1 }).2) ∧
    (loop envOpenRecForever 5 Phase.top {}).2 = none ∧
    (loop envOpenRecCancel 4 Phase.top {}).2 = some Outcome.ok := by
  exact ⟨open_recoverable_retries_until_cancellation.1 envOpenRecForever 0 {}
      (by decide) (by decide),
    open_recoverable_retries_until_cancellation.2.1 envOpenRecForever rfl
      (fun i => rfl) 5 {},
    open_recoverable_retries_until_cancellation.2.2 envOpenRecCancel 3 rfl
      (fun i => rfl) 4 {} (by decide) (by decide)⟩

/-! ### Claim C9 -/

/-- C9: on every non-cancelled Opening iteration the trace starts with the
checkpoint effects, then the `open()` call, then a Running status write —
i.e. Running is re-asserted after `open()` returns and before its outcome is
classified, so a Degraded write of a previous iteration is overwritten by a
Running write even when the same failure is about to be re-reported. -/
theorem running_reasserted_before_open_classification :
    ∀ env fuel (c : Counters),
      env.cancelled c.polls = false →
      ∃ rest, (loop env (fuel + 1) Phase.top c).1 =
        (initCheckpoint env.cursor).1 ++ Effect.openCall (initCheckpoint env.cursor).2
          :: Effect.updateStatus Status.running Msg.emptyMsg :: rest := by
  intro env fuel c hc
  cases hopen : env.openResults c.openIdx with
  | none =>
    rw [loop_top_open_ok env fuel c hc hopen]
    exact ⟨_, rfl⟩
  | some e =>
    cases e with
    | recoverable =>
      rw [loop_top_recoverable_step env fuel c hc hopen]
      exact ⟨_, rfl⟩
    | channelNotFound =>
      cases hf : env.isFile with
      | true =>
        rw [loop_top_open_fatal env fuel c GoErr.channelNotFound hc (by decide)
          (Or.inl hf) hopen]
        exact ⟨_, rfl⟩
      | false =>
        cases hdet : c.cnfDetected with
        | false =>
          rw [loop_top_cnf_first env fuel c hc hf hopen hdet]
          exact ⟨_, rfl⟩
        | true =>
          rw [loop_top_cnf_repeat env fuel c hc hf hopen hdet]
          exact ⟨_, rfl⟩
    | eof =>
      rw [loop_top_open_fatal env fuel c GoErr.eof hc (by decide)
        (Or.inr (by decide)) hopen]
      exact ⟨_, rfl⟩
    | other k =>
      rw [loop_top_open_fatal env fuel c (GoErr.other k) hc (by simp)
        (Or.inr (by simp)) hopen]
      exact ⟨_, rfl⟩

/-- Environment for the status-flicker scenario: a live channel that is
never found, so every iteration writes Degraded, and the next iteration
re-asserts Running before re-classifying the same failure. -/
def envFlicker : RunEnv :=
  { isFile := false,
    cursor := { isNew := true, unpackResult := Except.ok {} },
    openResults := fun _ => some GoErr.channelNotFound,
    readResults := fun _ => ([], none),
    resetResults := fun _ => none,
    publishResults := fun _ => none,
    cancelAfter := none }

/-- C9 witness: the Running write after the open call on the second iteration
of the never-found channel, whose first iteration wrote Degraded. -/
theorem running_reasserted_witness :
    ∃ rest, (loop envFlicker 2 Phase.top { polls := 1, openIdx := 1, cnfDetected := true }).1 =
      (initCheckpoint envFlicker.cursor).1
        ++ Effect.openCall (initCheckpoint envFlicker.cursor).2
        :: Effect.updateStatus Status.running Msg.emptyMsg :: rest := by
  exact running_reasserted_before_open_classification envFlicker 1
    { polls := 1, openIdx := 1, cnfDetected := true } (by decide)

/-! ### Claim C10 -/

theorem loop_reading_cnf_reset_ok (env : RunEnv) (fuel : Nat) (c : Counters)
    (recs : List Record)
    (hc : env.cancelled c.polls = false)
    (hfile : env.isFile = false)
    (hread : env.readResults c.readIdx = (recs, some GoErr.channelNotFound))
    (hreset : env.resetResults c.resetIdx = none) :
    loop env (fuel + 1) Phase.reading c =
      (Effect.readCall :: Effect.logError (Msg.channelNotFoundRead (some GoErr.channelNotFound))
         :: Effect.resetCall
         :: (loop env fuel Phase.top
              { c with polls := c.polls + 1, readIdx := c.readIdx + 1,
                       resetIdx := c.resetIdx + 1 }).1,
       (loop env fuel Phase.top
          { c with polls := c.polls + 1, readIdx := c.readIdx + 1,
                   resetIdx := c.resetIdx + 1 }).2) := by
  simp [loop, readStep, hc, hfile, hread, hreset, IsRecoverable, IsChannelNotFound]

/-- C10: a read-loop iteration that hits a Recoverable or (non-file)
channel-not-found read error and whose `reset()` succeeds performs no
status-sink update: its effects are only the read call, an error log and the
reset call, and control returns to the top of the run loop with the last
reported status unchanged. -/
theorem read_retry_with_successful_reset_updates_no_status :
    ∀ env fuel (c : Counters) recs,
      env.cancelled c.polls = false →
      env.resetResults c.resetIdx = none →
      (env.readResults c.readIdx = (recs, some GoErr.recoverable) ∨
        (env.isFile = false ∧
          env.readResults c.readIdx = (recs, some GoErr.channelNotFound))) →
      ∃ tr, loop env (fuel + 1) Phase.reading c =
          (tr ++ (loop env fuel Phase.top
              { c with polls := c.polls + 1, readIdx := c.readIdx + 1,
                       resetIdx := c.resetIdx + 1 }).1,
           (loop env fuel Phase.top
              { c with polls := c.polls + 1, readIdx := c.readIdx + 1,
                       resetIdx := c.resetIdx + 1 }).2) ∧
        ∀ s m, Effect.updateStatus s m ∉ tr := by
  intro env fuel c recs hc hreset herr
  rcases herr with hread | ⟨hfile, hread⟩
  · refine ⟨[Effect.readCall, Effect.logError (Msg.recoverableRead (some GoErr.recoverable)),
      Effect.resetCall], ?_, ?_⟩
    · rw [loop_reading_recoverable_reset_ok env fuel c recs hc hread hreset]
      rfl
    · intro s m
      simp
  · refine ⟨[Effect.readCall,
      Effect.logError (Msg.channelNotFoundRead (some GoErr.channelNotFound)),
      Effect.resetCall], ?_, ?_⟩
    · rw [loop_reading_cnf_reset_ok env fuel c recs hc hfile hread hreset]
      rfl
    · intro s m
      simp

/-- Environment: recoverable read errors with succeeding resets. -/
def envReadRetryRec : RunEnv :=
  { isFile := true,
    cursor := { isNew := true, unpackResult := Except.ok {} },
    openResults := fun _ => none,
    readResults := fun _ => ([], some GoErr.recoverable),
    resetResults := fun _ => none,
    publishResults := fun _ => none,
    cancelAfter := none }

/-- Environment: channel-not-found read errors on a live channel with
succeeding resets. -/
def envReadRetryCnf : RunEnv :=
  { isFile := false,
    cursor := { isNew := true, unpackResult := Except.ok {} },
    openResults := fun _ => none,
    readResults := fun _ => ([], some GoErr.channelNotFound),
    resetResults := fun _ => none,
    publishResults := fun _ => none,
    cancelAfter := none }

/-- C10 witness: the status-free retry iteration for a recoverable read
error and for a live-channel channel-not-found read error. -/
theorem read_retry_frame_witness :
    (∃ tr, loop envReadRetryRec 1 Phase.reading {} =
        (tr ++ (loop envReadRetryRec 0 Phase.top
            { polls := 1, readIdx := 1, resetIdx := 1 }).1,
         (loop envReadRetryRec 0 Phase.top
            { polls := 1, readIdx := 1, resetIdx := 1 }).2) ∧
      ∀ s m, Effect.updateStatus s m ∉ tr) ∧
    (∃ tr, loop envReadRetryCnf 1 Phase.reading {} =
        (tr ++ (loop envReadRetryCnf 0 Phase.top
            { polls := 1, readIdx := 1, resetIdx := 1 }).1,
         (loop envReadRetryCnf 0 Phase.top
            { polls := 1, readIdx := 1, resetIdx := 1 }).2) ∧
      ∀ s m, Effect.updateStatus s m ∉ tr) := by
  exact ⟨read_retry_with_successful_reset_updates_no_status envReadRetryRec 0 {} []
      (by decide) (by decide) (Or.inl (by decide)),
    read_retry_with_successful_reset_updates_no_status envReadRetryCnf 0 {} []
      (by decide) (by decide) (Or.inr ⟨by decide, by decide⟩)⟩

/-! ### Claim C1, amended theorem -/

/-- Environment whose read fails fatally while cancellation becomes
observable exactly at the read-error race check, for the shutdown-race
conjunct of the amended cancellation claim. -/
def envC1Race : RunEnv :=
  { isFile := true,
    cursor := { isNew := true, unpackResult := Except.ok {} },
    openResults := fun _ => none,
    readResults := fun _ => ([], some (GoErr.other 1)),
    resetResults := fun _ => none,
    publishResults := fun _ => none,
    cancelAfter := some 1 }

/-- C1 (amended): on every completed exit path of `Run` (cancellation,
EndOfStream, fatal open/read error, publish error) `close()` is invoked
exactly once, and zero times while the run has not returned; and whenever a
cancellation check of the Runner observes the signal — the top-of-loop
check, the read-loop condition (both covered by the phase-entry conjunct),
or the read-error race check after a terminal read error (the last
conjunct) — the run returns nil.  A fatal `open()` error concurrent with
cancellation is however still returned as an error (see the counterexample):
the open path polls cancellation only at the top of the loop. -/
theorem close_exactly_once_and_observed_cancellation_returns_nil :
    (∀ env fuel, (run env fuel).1.count Effect.close
        = if (run env fuel).2.isSome then 1 else 0) ∧
    (∀ env fuel ph (c : Counters), 2 ≤ fuel → env.cancelled c.polls = true →
        (loop env fuel ph c).2 = some Outcome.ok) ∧
    (∀ env fuel (c : Counters) recs e,
        env.cancelled c.polls = false →
        env.readResults c.readIdx = (recs, some e) →
        e ≠ GoErr.recoverable →
        (env.isFile = true ∨ e ≠ GoErr.channelNotFound) →
        e ≠ GoErr.eof →
        env.cancelled (c.polls + 1) = true →
        (loop env (fuel + 1) Phase.reading c).2 = some Outcome.ok) := by
  refine ⟨run_close_count, cancelled_loop_ok, ?_⟩
  intro env fuel c recs e h1 h2 h3 h4 h5 h6
  rw [loop_reading_error_race env fuel c recs e h1 h2 h3 h4 h5 h6]

/-- C1 witness: the close-once count on Scenario A, a nil return for a run
whose cancellation is observed at the pending phase-entry check, and a nil
return when cancellation is first observed at the read-error race check. -/
theorem close_exactly_once_witness :
    (run envScenarioA 6).1.count Effect.close
        = (if (run envScenarioA 6).2.isSome then 1 else 0) ∧
    (loop envCancelOpenFatal 2 Phase.top { polls := 1 }).2 = some Outcome.ok ∧
    (loop envC1Race 1 Phase.reading {}).2 = some Outcome.ok := by
  exact ⟨close_exactly_once_and_observed_cancellation_returns_nil.1 envScenarioA 6,
    close_exactly_once_and_observed_cancellation_returns_nil.2.1 envCancelOpenFatal 2
      Phase.top { polls := 1 } (by decide) (by decide),
    close_exactly_once_and_observed_cancellation_returns_nil.2.2 envC1Race 0 {} []
      (GoErr.other 1) (by decide) (by decide) (by decide) (Or.inl (by decide))
      (by decide) (by decide)⟩

end Winlog
